import Mathlib

/-
Verification of the SDLInputManager subsystem (src/qt/src/SDLInputManager.cpp
and SDLInputManager.hpp): device registry, hat/axis discretization, and the
SDL event loop, embedded shallowly in Lean.
-/

namespace SDLIM

/-- SDL hat bitmask constant SDL_HAT_UP (value 0x01 in SDL_joystick.h). -/
def SDL_HAT_UP : Nat := 1

/-- SDL hat bitmask constant SDL_HAT_RIGHT (value 0x02). -/
def SDL_HAT_RIGHT : Nat := 2

/-- SDL hat bitmask constant SDL_HAT_DOWN (value 0x04). -/
def SDL_HAT_DOWN : Nat := 4

/-- SDL hat bitmask constant SDL_HAT_LEFT (value 0x08). -/
def SDL_HAT_LEFT : Nat := 8

/-- The braced initializer list `{ SDL_HAT_UP, SDL_HAT_DOWN, SDL_HAT_LEFT,
SDL_HAT_RIGHT }` iterated by the loop at SDLInputManager.cpp line 69. -/
def hatScanOrder : List Nat := [SDL_HAT_UP, SDL_HAT_DOWN, SDL_HAT_LEFT, SDL_HAT_RIGHT]

/-- The state-transition core of `SDLInputManager::DiscretizeHatEvent`
(SDLInputManager.cpp lines 62-79), acting on the stored hat state
`device.hats[hat].state` and the incoming sample `event.jhat.value`.
Returns the optional `(direction, pressed)` payload of the emitted
`DiscreteHatEvent` together with the stored state after the call.  The
loop over the four directions is unrolled in its source order; each branch
mirrors `dhe.direction = s; dhe.pressed = (new_state & s); old_state =
new_state; return dhe;`. -/
def discretizeHatState (old_state new_state : Nat) : Option (Nat × Bool) × Nat :=
  if old_state = new_state then (none, old_state)
  else if (old_state &&& SDL_HAT_UP) ≠ (new_state &&& SDL_HAT_UP) then
    (some (SDL_HAT_UP, (new_state &&& SDL_HAT_UP) != 0), new_state)
  else if (old_state &&& SDL_HAT_DOWN) ≠ (new_state &&& SDL_HAT_DOWN) then
    (some (SDL_HAT_DOWN, (new_state &&& SDL_HAT_DOWN) != 0), new_state)
  else if (old_state &&& SDL_HAT_LEFT) ≠ (new_state &&& SDL_HAT_LEFT) then
    (some (SDL_HAT_LEFT, (new_state &&& SDL_HAT_LEFT) != 0), new_state)
  else if (old_state &&& SDL_HAT_RIGHT) ≠ (new_state &&& SDL_HAT_RIGHT) then
    (some (SDL_HAT_RIGHT, (new_state &&& SDL_HAT_RIGHT) != 0), new_state)
  else (none, old_state)

/-- The `pressed` lambda of `SDLInputManager::DiscretizeJoyAxisEvent`
(SDLInputManager.cpp lines 94-100).  C++ `int` division truncates toward
zero, which is `Int.tdiv` in Lean. -/
def axisPressed (center v : Int) : Int :=
  if v > center + Int.tdiv (32767 - center) 3 then 1
  else if v < center - Int.tdiv (center + 32768) 3 then -1
  else 0

/-- The state-transition core of `SDLInputManager::DiscretizeJoyAxisEvent`
(SDLInputManager.cpp lines 102-118), acting on the per-axis fields
`initial` (called `center`) and `last` (called `then`/`last`) and the raw
sample `now`.  Returns the optional `(direction, pressed)` payload of the
emitted `DiscreteAxisEvent` together with the stored `last` after the
call; both branches of the source update `then = now`. -/
def discretizeAxisState (center last now : Int) : Option (Int × Bool) × Int :=
  let was := axisPressed center last
  let is := axisPressed center now
  if was = is then (none, now)
  else (some (if is ≠ 0 then is else was, decide (is ≠ 0)), now)

/-- Per-axis debounce state, struct `SDLInputDevice::Axis`
(SDLInputManager.hpp lines 24-28). -/
structure AxisState where
  initial : Int
  last : Int
deriving DecidableEq, Repr

/-- An open device, struct `SDLInputDevice` (SDLInputManager.hpp lines
13-38).  The opaque SDL handles are represented by `controller`, which is
`some h` exactly when the device was opened through the game-controller
API (`controller = nullptr` for plain joysticks); each `Hat` struct holds
only its `uint8_t state`, so `hats` is a list of stored hat states. -/
structure Device where
  instance_id : Int
  index : Int
  is_controller : Bool
  controller : Option Int
  axes : List AxisState
  hats : List Nat
  buttons : Nat
deriving DecidableEq, Repr

/-- The value-initialized `SDLInputDevice` produced by
`std::map::operator[]` on a missing key (used at SDLInputManager.cpp line
153): integral fields zero, `controller` and `joystick` null, vectors
empty. -/
def defaultDevice : Device :=
  { instance_id := 0, index := 0, is_controller := false, controller := none
    axes := [], hats := [], buttons := 0 }

/-- Calls the SDL library makes on behalf of the manager, recorded as an
action trace. -/
inductive Action where
  | emitEvent (slot : Int)
  | startRumble (handle : Option Int) (low high dur : Nat)
  | stopRumble (handle : Option Int)
  | closeController (handle : Option Int)
  | closeJoystick (id : Int)
  | notifyWork
  | sdlQuit
deriving DecidableEq, Repr

/-- The registry `std::map<SDL_JoystickID, SDLInputDevice> devices`
(SDLInputManager.hpp line 82), as an association list keyed by instance
id. -/
abbrev Registry := List (Int × Device)

/-- `devices.find(id)` / `devices.at(id)` success case: the mapped device,
if the key is present. -/
def lookup (r : Registry) (id : Int) : Option Device :=
  (r.find? (fun p => p.1 == id)).map Prod.snd

/-- `devices.insert({k, d})` (SDLInputManager.cpp line 32): `std::map::insert`
leaves the map unchanged when the key is already present. -/
def mapInsert (r : Registry) (k : Int) (d : Device) : Registry :=
  if (lookup r k).isSome then r else (k, d) :: r

/-- `devices[id]` (SDLInputManager.cpp line 153): `std::map::operator[]`
returns the mapped device if present, and otherwise inserts a
value-initialized device under that key and returns it. -/
def mapIndexDefault (r : Registry) (id : Int) : Device × Registry :=
  match lookup r id with
  | some d => (d, r)
  | none => (defaultDevice, r ++ [(id, defaultDevice)])

/-- The successful outcome of `SDLInputDevice::open` (SDLInputManager.cpp
lines 201-233), as reported by the SDL library: the joystick instance id,
whether the game-controller API applies, the initial rest sample of each
axis, and the hat/button counts. -/
structure OpenOutcome where
  instance_id : Int
  is_controller : Bool
  axes_init : List Int
  num_hats : Nat
  num_buttons : Nat
deriving DecidableEq, Repr

/-- The `SDLInputDevice` fields populated by a successful
`SDLInputDevice::open` (SDLInputManager.cpp lines 220-232): each axis
starts with `last = initial`, hat states are value-initialized to 0, and
`index` is assigned later by `AddDevice`. -/
def deviceOfOpen (res : OpenOutcome) : Device :=
  { instance_id := res.instance_id
    index := 0
    is_controller := res.is_controller
    controller := if res.is_controller then some res.instance_id else none
    axes := res.axes_init.map (fun v => { initial := v, last := v })
    hats := List.replicate res.num_hats 0
    buttons := res.num_buttons }

/-- The inner loop body of `SDLInputManager::FindFirstOpenIndex`
(SDLInputManager.cpp lines 191-197), searching upward from `i`:
`std::none_of(devices..., d.second.index == i)` returns `i`, otherwise the
scan continues at `i + 1`.  The C++ loop is unbounded; `fuel` bounds the
embedding, and the theorems below show any fuel of at least
`devices.length + 1` yields the same result. -/
def findFrom (devices : List Device) : Nat → Int → Int
  | 0, i => i
  | fuel + 1, i =>
      if devices.all (fun d => d.index != i) then i
      else findFrom devices fuel (i + 1)

/-- `SDLInputManager::FindFirstOpenIndex` (SDLInputManager.cpp lines
189-199). -/
def findFirstOpenIndex (devices : List Device) : Int :=
  findFrom devices (devices.length + 1) 0

/-- `SDLInputManager::AddDevice` (SDLInputManager.cpp lines 21-33).  The
outcome of `d.open(device_index)` is the environment-supplied `res`:
`none` means the open call failed and AddDevice returns with the registry
untouched; otherwise `d.index = FindFirstOpenIndex()` and the device is
inserted under its instance id. -/
def AddDevice (r : Registry) (res : Option OpenOutcome) : Registry :=
  match res with
  | none => r
  | some res =>
      let d := { deviceOfOpen res with index := findFirstOpenIndex (r.map Prod.snd) }
      mapInsert r d.instance_id d

/-- `SDLInputManager::RemoveDevice` (SDLInputManager.cpp lines 35-51):
returns the registry after the call together with the close calls issued.
An absent id is a no-op; otherwise the matching close call is issued and
the entry erased. -/
def RemoveDevice (r : Registry) (id : Int) : Registry × List Action :=
  match lookup r id with
  | none => (r, [])
  | some d =>
      (r.eraseP (fun p => p.1 == id),
       [if d.is_controller then Action.closeController d.controller
        else Action.closeJoystick d.instance_id])

/-- The exception thrown by `std::map::at` on a missing key
(`std::out_of_range`), which propagates out of the discretizers uncaught. -/
inductive MapError where
  | outOfRange
deriving DecidableEq, Repr

/-- Struct `SDLInputManager::DiscreteHatEvent` (SDLInputManager.hpp lines
62-68). -/
structure DiscreteHatEvent where
  joystick_num : Int
  hat : Nat
  direction : Nat
  pressed : Bool
deriving DecidableEq, Repr

/-- Struct `SDLInputManager::DiscreteAxisEvent` (SDLInputManager.hpp lines
53-59); its `pressed` field is the C++ `int` value of `is_pressed_now != 0`,
modeled as a Bool. -/
structure DiscreteAxisEvent where
  joystick_num : Int
  axis : Nat
  direction : Int
  pressed : Bool
deriving DecidableEq, Repr

/-- Rewrites the device stored under `id` in place (the mutation through
the `devices.at` reference in the discretizers). -/
def updateDeviceEntry (r : Registry) (id : Int) (f : Device → Device) : Registry :=
  r.map (fun p => if p.1 == id then (p.1, f p.2) else p)

/-- `SDLInputManager::DiscretizeHatEvent` (SDLInputManager.cpp lines
53-80) at registry level: `devices.at(event.jhat.which)` throws
`std::out_of_range` when the id is absent; otherwise the pure transition
`discretizeHatState` runs on `device.hats[hat].state` and the event, if
any, carries `device.index` as `joystick_num`. -/
def DiscretizeHatEventM (r : Registry) (which : Int) (hat : Nat) (value : Nat) :
    Except MapError (Option DiscreteHatEvent × Registry) :=
  match lookup r which with
  | none => Except.error MapError.outOfRange
  | some device =>
      let old_state := device.hats.getD hat 0
      match discretizeHatState old_state value with
      | (none, _) => Except.ok (none, r)
      | (some (dir, pr), new_state) =>
          Except.ok (some ⟨device.index, hat, dir, pr⟩,
            updateDeviceEntry r which
              (fun d => { d with hats := d.hats.set hat new_state }))

/-- `SDLInputManager::DiscretizeJoyAxisEvent` (SDLInputManager.cpp lines
82-119) at registry level: `devices.at(event.jaxis.which)` throws
`std::out_of_range` when the id is absent; otherwise the pure transition
`discretizeAxisState` runs on the axis's `initial`/`last` fields and the
stored `last` is always updated to the new sample. -/
def DiscretizeJoyAxisEventM (r : Registry) (which : Int) (axis : Nat) (value : Int) :
    Except MapError (Option DiscreteAxisEvent × Registry) :=
  match lookup r which with
  | none => Except.error MapError.outOfRange
  | some device =>
      let a := device.axes.getD axis { initial := 0, last := 0 }
      let upd := updateDeviceEntry r which
        (fun d => { d with axes := d.axes.set axis { a with last := value } })
      match discretizeAxisState a.initial a.last value with
      | (none, _) => Except.ok (none, upd)
      | (some (dir, pr), _) => Except.ok (some ⟨device.index, axis, dir, pr⟩, upd)

/-- A registry operation: an attach notification (with the open outcome
the SDL library reports) or a detach notification. -/
inductive RegOp where
  | add (res : Option OpenOutcome)
  | remove (id : Int)
deriving DecidableEq, Repr

/-- Applies one attach/detach notification to the registry. -/
def applyOp (r : Registry) : RegOp → Registry
  | RegOp.add res => AddDevice r res
  | RegOp.remove id => (RemoveDevice r id).1

/-- Applies a sequence of attach/detach notifications, oldest first. -/
def applyOps (r : Registry) (ops : List RegOp) : Registry :=
  ops.foldl applyOp r

/-- The SDL event kinds the switch in `SDLInputManager::run`
(SDLInputManager.cpp lines 143-184) distinguishes.  `firstEvent` is the
zero-initialized `SDL_Event e{}` before any wait returns (type 0, which
falls into the default branch and matches neither registered user event). -/
inductive SDLEventT where
  | firstEvent
  | joyAxisMotion (which : Int) (axis : Nat) (value : Int)
  | joyHatMotion (which : Int) (hat : Nat) (value : Nat)
  | joyButtonDown (which : Int)
  | joyButtonUp (which : Int)
  | joyDeviceAdded (which : Int)
  | joyDeviceRemoved (which : Int)
  | quit
  | workEvent
  | rumbleEvent
deriving DecidableEq, Repr

/-- What the wait call returns on one loop iteration: a fresh event, or a
timeout.  `SDL_WaitEventTimeout` returning 0 leaves `e` unchanged; a
timeout can only occur while a rumble deadline is pending. -/
inductive WaitOutcome where
  | timeout
  | event (e : SDLEventT)
deriving DecidableEq, Repr

/-- The environment-supplied data of one loop iteration: the wait outcome,
the value `SDL_GetTicks()` would return, and the open outcome consumed if
the iteration processes a `joyDeviceAdded` event. -/
structure LoopInput where
  w : WaitOutcome
  ticks : Nat
  openRes : Option OpenOutcome
deriving DecidableEq, Repr

/-- The state of `SDLInputManager::run` (SDLInputManager.cpp lines
121-187): the `run` flag, the current contents of the `SDL_Event e`
variable (which persists across iterations), the pending rumble deadline,
the most recent `rumble_data`, the device registry, and the trace of SDL
calls issued so far. -/
structure LoopState where
  running : Bool
  e : SDLEventT
  rumble_end : Option Nat
  rumble_data : Nat × Nat × Nat
  devices : Registry
  trace : List Action
deriving DecidableEq, Repr

/-- The `switch (e.type)` statement of `SDLInputManager::run`
(SDLInputManager.cpp lines 143-184), dispatching on the current contents
of `e`.  Axis/hat/attach/detach events are forwarded with slot 0; button
events are forwarded with `devices[e.jbutton.which].index` (operator[]
inserts a default device on a missing key); `SDL_QUIT` clears the run
flag; the work event notifies the waiting submitter; the rumble event
records `rumble_end = SDL_GetTicks() + duration_ms` and starts actuation
on every device entry with its (possibly null) controller handle. -/
def dispatchEvent (s : LoopState) (ticks : Nat) (openRes : Option OpenOutcome) : LoopState :=
  match s.e with
  | SDLEventT.firstEvent => s
  | SDLEventT.joyAxisMotion _ _ _ => { s with trace := s.trace ++ [Action.emitEvent 0] }
  | SDLEventT.joyHatMotion _ _ _ => { s with trace := s.trace ++ [Action.emitEvent 0] }
  | SDLEventT.joyButtonDown which =>
      let dr := mapIndexDefault s.devices which
      { s with devices := dr.2, trace := s.trace ++ [Action.emitEvent dr.1.index] }
  | SDLEventT.joyButtonUp which =>
      let dr := mapIndexDefault s.devices which
      { s with devices := dr.2, trace := s.trace ++ [Action.emitEvent dr.1.index] }
  | SDLEventT.joyDeviceAdded _ =>
      { s with devices := AddDevice s.devices openRes
               trace := s.trace ++ [Action.emitEvent 0] }
  | SDLEventT.joyDeviceRemoved which =>
      let ra := RemoveDevice s.devices which
      { s with devices := ra.1, trace := s.trace ++ ra.2 ++ [Action.emitEvent 0] }
  | SDLEventT.quit => { s with running := false }
  | SDLEventT.workEvent => { s with trace := s.trace ++ [Action.notifyWork] }
  | SDLEventT.rumbleEvent =>
      { s with rumble_end := some (ticks + s.rumble_data.2.2)
               trace := s.trace ++ s.devices.map (fun p =>
                 Action.startRumble p.2.controller s.rumble_data.1 s.rumble_data.2.1
                   s.rumble_data.2.2) }

/-- One iteration of the `while (run)` loop of `SDLInputManager::run`
(SDLInputManager.cpp lines 128-185).  With a deadline pending, a timeout
clears `rumble_end`, issues `SDL_GameControllerRumble(dev.controller, 0,
0, 0)` on every device entry, and then — because `SDL_WaitEventTimeout`
left `e` unchanged — falls through to the switch on the stale event.  A
fresh event overwrites `e` and is dispatched; without a pending deadline
`SDL_WaitEvent` never times out (a timeout input is a stutter). -/
def loopStep (s : LoopState) (inp : LoopInput) : LoopState :=
  match s.rumble_end with
  | some _ =>
      match inp.w with
      | WaitOutcome.timeout =>
          dispatchEvent
            { s with rumble_end := none
                     trace := s.trace ++ s.devices.map (fun p => Action.stopRumble p.2.controller) }
            inp.ticks inp.openRes
      | WaitOutcome.event ev => dispatchEvent { s with e := ev } inp.ticks inp.openRes
  | none =>
      match inp.w with
      | WaitOutcome.timeout => s
      | WaitOutcome.event ev => dispatchEvent { s with e := ev } inp.ticks inp.openRes

/-- The `while (run)` loop: consume inputs until the run flag is cleared
(or the supplied inputs are exhausted). -/
def runBody (s : LoopState) : List LoopInput → LoopState
  | [] => s
  | inp :: rest => if s.running then runBody (loopStep s inp) rest else s

/-- All of `SDLInputManager::run` on a finite input schedule: the loop,
then the `SDL_Quit()` call after it (which shuts the joystick and
game-controller subsystems down). -/
def runModel (s : LoopState) (inputs : List LoopInput) : LoopState :=
  let f := runBody s inputs
  { f with trace := f.trace ++ [Action.sdlQuit] }

/-- The state at the top of `SDLInputManager::run` (SDLInputManager.cpp
lines 123-126) for a given starting registry and `rumble_data`. -/
def initialLoopState (r : Registry) (rd : Nat × Nat × Nat) : LoopState :=
  { running := true, e := SDLEventT.firstEvent, rumble_end := none
    rumble_data := rd, devices := r, trace := [] }

/-- Scenario device A of the spec: 4 axes, 1 hat, 2 buttons, instance id 1. -/
def scenA : OpenOutcome := ⟨1, false, [0, 0, 0, 0], 1, 2⟩

/-- Scenario device B of the spec, instance id 2. -/
def scenB : OpenOutcome := ⟨2, false, [], 0, 0⟩

/-- Scenario device C of the spec, instance id 3. -/
def scenC : OpenOutcome := ⟨3, false, [], 0, 0⟩

/-- Registry after attaching A then B. -/
def scenAB : Registry := applyOps [] [RegOp.add (some scenA), RegOp.add (some scenB)]

/-- Registry after attaching A and B, detaching A, then attaching C. -/
def scenFinal : Registry :=
  applyOps [] [RegOp.add (some scenA), RegOp.add (some scenB),
    RegOp.remove 1, RegOp.add (some scenC)]

/-- A controller-kind device with instance id 7 at slot 0 (its controller
handle is non-null). -/
def ctrlDev : Device := { deviceOfOpen ⟨7, true, [], 0, 0⟩ with index := 0 }

/-- Loop state at the top of `run()` with one open controller and
`rumble_data` = (low 1, high 1, duration 50 ms) already stored by a
`rumble()` call. -/
def rumbleStart : LoopState := initialLoopState [(7, ctrlDev)] (1, 1, 50)

/-- The spec rumble scenario schedule: the rumble request event arrives,
then no further events — the wait times out, twice. -/
def rumbleSchedule : List LoopInput :=
  [⟨WaitOutcome.event SDLEventT.rumbleEvent, 100, none⟩,
   ⟨WaitOutcome.timeout, 150, none⟩,
   ⟨WaitOutcome.timeout, 200, none⟩]

/-- Loop state with one open controller, for the shutdown scenario. -/
def shutdownStart : LoopState := initialLoopState [(7, ctrlDev)] (0, 0, 0)

/-- C1.  Hat discretization: when the stored state equals the incoming
sample, no event is produced and the stored state is unchanged; otherwise
the first direction in the fixed scan order Up, Down, Left, Right whose
bit differs yields the single event `(direction, pressed = bit set in
new_bits)` and the stored state becomes `new_bits`.  The branches below
enumerate exactly the first in scan order differing: each hypothesis list
says the earlier directions agree and this one differs.  The result type
carries at most one event, so no further event is emitted for the sample
even when several direction bits changed. -/
theorem hat_discretization_correct (old_bits new_bits : Nat) :
    (old_bits = new_bits → discretizeHatState old_bits new_bits = (none, old_bits)) ∧
    ((old_bits &&& SDL_HAT_UP) ≠ (new_bits &&& SDL_HAT_UP) →
      discretizeHatState old_bits new_bits =
        (some (SDL_HAT_UP, (new_bits &&& SDL_HAT_UP) != 0), new_bits)) ∧
    ((old_bits &&& SDL_HAT_UP) = (new_bits &&& SDL_HAT_UP) →
      (old_bits &&& SDL_HAT_DOWN) ≠ (new_bits &&& SDL_HAT_DOWN) →
      discretizeHatState old_bits new_bits =
        (some (SDL_HAT_DOWN, (new_bits &&& SDL_HAT_DOWN) != 0), new_bits)) ∧
    ((old_bits &&& SDL_HAT_UP) = (new_bits &&& SDL_HAT_UP) →
      (old_bits &&& SDL_HAT_DOWN) = (new_bits &&& SDL_HAT_DOWN) →
      (old_bits &&& SDL_HAT_LEFT) ≠ (new_bits &&& SDL_HAT_LEFT) →
      discretizeHatState old_bits new_bits =
        (some (SDL_HAT_LEFT, (new_bits &&& SDL_HAT_LEFT) != 0), new_bits)) ∧
    ((old_bits &&& SDL_HAT_UP) = (new_bits &&& SDL_HAT_UP) →
      (old_bits &&& SDL_HAT_DOWN) = (new_bits &&& SDL_HAT_DOWN) →
      (old_bits &&& SDL_HAT_LEFT) = (new_bits &&& SDL_HAT_LEFT) →
      (old_bits &&& SDL_HAT_RIGHT) ≠ (new_bits &&& SDL_HAT_RIGHT) →
      discretizeHatState old_bits new_bits =
        (some (SDL_HAT_RIGHT, (new_bits &&& SDL_HAT_RIGHT) != 0), new_bits)) := by
  refine ⟨?_, ?_, ?_, ?_, ?_⟩
  · intro h
    unfold discretizeHatState
    rw [if_pos h]
  · intro h
    have hne : old_bits ≠ new_bits := fun he => h (by rw [he])
    unfold discretizeHatState
    rw [if_neg hne, if_pos h]
  · intro h1 h2
    have hne : old_bits ≠ new_bits := fun he => h2 (by rw [he])
    unfold discretizeHatState
    rw [if_neg hne, if_neg (fun hn => hn h1), if_pos h2]
  · intro h1 h2 h3
    have hne : old_bits ≠ new_bits := fun he => h3 (by rw [he])
    unfold discretizeHatState
    rw [if_neg hne, if_neg (fun hn => hn h1), if_neg (fun hn => hn h2), if_pos h3]
  · intro h1 h2 h3 h4
    have hne : old_bits ≠ new_bits := fun he => h4 (by rw [he])
    unfold discretizeHatState
    rw [if_neg hne, if_neg (fun hn => hn h1), if_neg (fun hn => hn h2),
      if_neg (fun hn => hn h3), if_pos h4]

/-- Witness for C1: from stored state 0, the sample `SDL_HAT_UP` yields
the Up-pressed event and the stored state becomes 1. -/
theorem hat_discretization_correct_witness :
    discretizeHatState 0 1 = (some (SDL_HAT_UP, (1 &&& SDL_HAT_UP) != 0), 1) :=
  (hat_discretization_correct 0 1).2.1 (by decide)

/-- C9.  When the stored state and the sample differ only in bits outside
the four direction masks, `DiscretizeHatEvent` emits no event and leaves
the stored state unchanged (the `old_state = new_state` write at line 75
is inside the matched branch and never runs). -/
theorem hat_nondirection_bits_no_event (old_bits new_bits : Nat)
    (hne : old_bits ≠ new_bits)
    (h : ∀ s ∈ hatScanOrder, old_bits &&& s = new_bits &&& s) :
    discretizeHatState old_bits new_bits = (none, old_bits) := by
  have hu := h SDL_HAT_UP (by simp [hatScanOrder])
  have hd := h SDL_HAT_DOWN (by simp [hatScanOrder])
  have hl := h SDL_HAT_LEFT (by simp [hatScanOrder])
  have hr := h SDL_HAT_RIGHT (by simp [hatScanOrder])
  unfold discretizeHatState
  rw [if_neg hne, if_neg (fun hn => hn hu), if_neg (fun hn => hn hd),
    if_neg (fun hn => hn hl), if_neg (fun hn => hn hr)]

/-- Witness for C9: states 16 and 0 differ only above the direction bits,
so no event is produced and the stored state stays 16. -/
theorem hat_nondirection_bits_no_event_witness :
    discretizeHatState 16 0 = (none, 16) :=
  hat_nondirection_bits_no_event 16 0 (by decide) (by decide)

/-- C2.  Axis discretization: with `was = pressed(last)` and
`is = pressed(now)`, equal pressed states update the stored `last` and
emit nothing; differing pressed states emit the single event
`(direction = is if nonzero else was, pressed = is nonzero)` and update
the stored `last`; and the `pressed` lambda maps a sample to +1 above
`center + (32767 - center) / 3`, -1 below `center - (center + 32768) / 3`,
and 0 in between (center being an int16_t rest sample). -/
theorem axis_discretization_correct (center last now : Int)
    (hc : -32768 ≤ center ∧ center ≤ 32767) :
    (axisPressed center last = axisPressed center now →
      discretizeAxisState center last now = (none, now)) ∧
    (axisPressed center last ≠ axisPressed center now →
      discretizeAxisState center last now =
        (some (if axisPressed center now ≠ 0 then axisPressed center now
               else axisPressed center last,
               decide (axisPressed center now ≠ 0)), now)) ∧
    (∀ v : Int,
      (center + Int.tdiv (32767 - center) 3 < v → axisPressed center v = 1) ∧
      (v < center - Int.tdiv (center + 32768) 3 → axisPressed center v = -1) ∧
      (center - Int.tdiv (center + 32768) 3 ≤ v →
        v ≤ center + Int.tdiv (32767 - center) 3 → axisPressed center v = 0)) := by
  have h1 : 0 ≤ Int.tdiv (32767 - center) 3 := Int.tdiv_nonneg (by omega) (by norm_num)
  have h2 : 0 ≤ Int.tdiv (center + 32768) 3 := Int.tdiv_nonneg (by omega) (by norm_num)
  refine ⟨?_, ?_, ?_⟩
  · intro h
    simp only [discretizeAxisState]
    rw [if_pos h]
  · intro h
    simp only [discretizeAxisState]
    rw [if_neg h]
  · intro v
    refine ⟨?_, ?_, ?_⟩
    · intro hv
      unfold axisPressed
      rw [if_pos hv]
    · intro hv
      unfold axisPressed
      rw [if_neg (by omega), if_pos hv]
    · intro hv1 hv2
      unfold axisPressed
      rw [if_neg (by omega), if_neg (by omega)]

/-- Witness for C2: with center 0 and stored last 0, the sample 20000
crosses the positive threshold and emits a press event in direction +1. -/
theorem axis_discretization_correct_witness :
    discretizeAxisState 0 0 20000 =
      (some (if axisPressed 0 20000 ≠ 0 then axisPressed 0 20000 else axisPressed 0 0,
             decide (axisPressed 0 20000 ≠ 0)), 20000) :=
  (axis_discretization_correct 0 0 20000 (by norm_num)).2.1 (by decide)

/-- Unfolds `std::none_of` over the registry values: the scan predicate of
`FindFirstOpenIndex` holds iff no device claims index `i`. -/
theorem all_ne_iff (devices : List Device) (i : Int) :
    (devices.all fun d => d.index != i) = true ↔ ∀ d ∈ devices, d.index ≠ i := by
  simp [List.all_eq_true]

/-- When the `none_of` scan fails at `i`, some device claims index `i`. -/
theorem not_all_claimed (devices : List Device) (i : Int)
    (hall : ¬ (devices.all fun d => d.index != i) = true) :
    ∃ d ∈ devices, d.index = i := by
  by_contra hc
  push_neg at hc
  exact hall ((all_ne_iff devices i).2 hc)

/-- Unfolding lemma for one iteration of the `FindFirstOpenIndex` scan. -/
theorem findFrom_succ (devices : List Device) (n : Nat) (i : Int) :
    findFrom devices (n + 1) i =
      if (devices.all fun d => d.index != i) = true then i
      else findFrom devices n (i + 1) := rfl

/-- Correctness of the bounded scan `findFrom`: if some index in
`[i, i + fuel)` is unclaimed, the scan returns the least unclaimed index
in that window. -/
theorem findFrom_spec (devices : List Device) :
    ∀ (fuel : Nat) (i : Int),
      (∃ j : Int, i ≤ j ∧ j < i + fuel ∧ ∀ d ∈ devices, d.index ≠ j) →
      (∀ d ∈ devices, d.index ≠ findFrom devices fuel i) ∧
      i ≤ findFrom devices fuel i ∧
      findFrom devices fuel i < i + fuel ∧
      (∀ k : Int, i ≤ k → k < findFrom devices fuel i → ∃ d ∈ devices, d.index = k) := by
  intro fuel
  induction fuel with
  | zero =>
      rintro i ⟨j, hj1, hj2, -⟩
      exfalso
      push_cast at hj2
      omega
  | succ n ih =>
      rintro i ⟨j, hj1, hj2, hjfree⟩
      by_cases hall : (devices.all fun d => d.index != i) = true
      · have hfree := (all_ne_iff devices i).1 hall
        have heq : findFrom devices (n + 1) i = i := by
          rw [findFrom_succ, if_pos hall]
        rw [heq]
        refine ⟨hfree, le_refl i, by push_cast; omega, ?_⟩
        intro k hk1 hk2
        exact absurd hk2 (not_lt.2 hk1)
      · obtain ⟨d, hd, hdi⟩ := not_all_claimed devices i hall
        have hji : j ≠ i := fun he => hjfree d hd (hdi.trans he.symm)
        have heq : findFrom devices (n + 1) i = findFrom devices n (i + 1) := by
          rw [findFrom_succ, if_neg hall]
        obtain ⟨f1, f2, f3, f4⟩ := ih (i + 1)
          ⟨j, by omega, by push_cast at hj2 ⊢; omega, hjfree⟩
        rw [heq]
        refine ⟨f1, by omega, by push_cast at f3 ⊢; omega, ?_⟩
        intro k hk1 hk2
        by_cases hki : k = i
        · exact hki ▸ ⟨d, hd, hdi⟩
        · exact f4 k (by omega) hk2

/-- Pigeonhole: among the indices `0 .. devices.length` at least one is
claimed by no device. -/
theorem exists_free_index (devices : List Device) :
    ∃ j : Int, 0 ≤ j ∧ j < (devices.length : Int) + 1 ∧ ∀ d ∈ devices, d.index ≠ j := by
  by_contra hc
  push_neg at hc
  have hsub : ((List.range (devices.length + 1)).map (fun k : Nat => (k : Int))).toFinset ⊆
      (devices.map Device.index).toFinset := by
    intro x hx
    rw [List.mem_toFinset] at hx ⊢
    rw [List.mem_map] at hx
    obtain ⟨k, hk, rfl⟩ := hx
    rw [List.mem_range] at hk
    obtain ⟨d, hd, hdi⟩ := hc (k : Int) (Int.natCast_nonneg k) (by exact_mod_cast hk)
    rw [List.mem_map]
    exact ⟨d, hd, hdi⟩
  have hnodup : ((List.range (devices.length + 1)).map (fun k : Nat => (k : Int))).Nodup :=
    (List.nodup_range _).map (fun a b h => by exact_mod_cast h)
  have hcard1 : ((List.range (devices.length + 1)).map (fun k : Nat => (k : Int))).toFinset.card
      = devices.length + 1 := by
    rw [List.toFinset_card_of_nodup hnodup]
    simp
  have hcard2 : (devices.map Device.index).toFinset.card ≤ devices.length := by
    calc (devices.map Device.index).toFinset.card
        ≤ (devices.map Device.index).length := List.toFinset_card_le _
      _ = devices.length := List.length_map _ _
  have hle := Finset.card_le_card hsub
  omega

/-- `FindFirstOpenIndex` returns a non-negative index claimed by no open
device, bounded by the device count, and minimal: every smaller
non-negative index is claimed. -/
theorem findFirstOpenIndex_spec (devices : List Device) :
    (∀ d ∈ devices, d.index ≠ findFirstOpenIndex devices) ∧
    0 ≤ findFirstOpenIndex devices ∧
    findFirstOpenIndex devices ≤ (devices.length : Int) ∧
    (∀ k : Int, 0 ≤ k → k < findFirstOpenIndex devices → ∃ d ∈ devices, d.index = k) := by
  obtain ⟨j, hj0, hjlt, hjfree⟩ := exists_free_index devices
  unfold findFirstOpenIndex
  obtain ⟨f1, f2, f3, f4⟩ := findFrom_spec devices (devices.length + 1) 0
    ⟨j, hj0, by push_cast; omega, hjfree⟩
  exact ⟨f1, f2, by push_cast at f3; omega, f4⟩

/-- The unbounded `for (int i = 0;; i++)` scan stabilizes: any fuel of at
least `devices.length + 1` returns the same index. -/
theorem findFrom_fuel_irrelevant (devices : List Device) :
    ∀ (f1 f2 : Nat) (i : Int), f1 ≤ f2 →
      (∃ j : Int, i ≤ j ∧ j < i + f1 ∧ ∀ d ∈ devices, d.index ≠ j) →
      findFrom devices f1 i = findFrom devices f2 i := by
  intro f1
  induction f1 with
  | zero =>
      rintro f2 i - ⟨j, hj1, hj2, -⟩
      exfalso
      push_cast at hj2
      omega
  | succ n ih =>
      rintro f2 i hle ⟨j, hj1, hj2, hjfree⟩
      obtain ⟨m, rfl⟩ : ∃ m, f2 = m + 1 := ⟨f2 - 1, by omega⟩
      by_cases hall : (devices.all fun d => d.index != i) = true
      · rw [findFrom_succ, findFrom_succ, if_pos hall, if_pos hall]
      · obtain ⟨d, hd, hdi⟩ := not_all_claimed devices i hall
        have hji : j ≠ i := fun he => hjfree d hd (hdi.trans he.symm)
        rw [findFrom_succ, findFrom_succ, if_neg hall, if_neg hall]
        exact ih m (i + 1) (by omega) ⟨j, by omega, by push_cast at hj2 ⊢; omega, hjfree⟩

/-- C10.  `FindFirstOpenIndex` terminates despite its unbounded loop and
returns a non-negative index no greater than the number of open devices:
by pigeonhole an unclaimed index exists within `0 .. n`, the bounded
embedding finds it, and any larger iteration bound returns the same
value. -/
theorem find_first_open_index_terminates (devices : List Device) :
    0 ≤ findFirstOpenIndex devices ∧
    findFirstOpenIndex devices ≤ (devices.length : Int) ∧
    (∀ d ∈ devices, d.index ≠ findFirstOpenIndex devices) ∧
    (∀ fuel : Nat, devices.length + 1 ≤ fuel →
      findFrom devices fuel 0 = findFirstOpenIndex devices) := by
  obtain ⟨f1, f2, f3, f4⟩ := findFirstOpenIndex_spec devices
  refine ⟨f2, f3, f1, ?_⟩
  intro fuel hf
  obtain ⟨j, hj0, hjlt, hjfree⟩ := exists_free_index devices
  unfold findFirstOpenIndex
  exact (findFrom_fuel_irrelevant devices (devices.length + 1) fuel 0 hf
    ⟨j, hj0, by push_cast; omega, hjfree⟩).symm

/-- Witness for C10: on the empty registry the scan returns 0, and a
larger fuel (a longer run of the unbounded loop) returns the same index. -/
theorem find_first_open_index_terminates_witness :
    findFirstOpenIndex [] = 0 ∧ findFrom [] 5 0 = findFirstOpenIndex [] :=
  ⟨by decide, (find_first_open_index_terminates []).2.2.2 5 (by decide)⟩

/-- C3.  Slot assignment: `FindFirstOpenIndex` returns the smallest
non-negative integer not assigned as the slot index of any open device;
`AddDevice` assigns exactly that value to a newly registered device; and
in the spec scenario (attach A, attach B, detach A, attach C) device C
receives the freed slot 0 while B keeps slot 1. -/
theorem slot_assignment_correct :
    (∀ devices : List Device,
      (∀ d ∈ devices, d.index ≠ findFirstOpenIndex devices) ∧
      0 ≤ findFirstOpenIndex devices ∧
      (∀ k : Int, 0 ≤ k → k < findFirstOpenIndex devices → ∃ d ∈ devices, d.index = k)) ∧
    (∀ (r : Registry) (res : OpenOutcome), lookup r res.instance_id = none →
      AddDevice r (some res) =
        (res.instance_id,
          { deviceOfOpen res with index := findFirstOpenIndex (r.map Prod.snd) }) :: r) ∧
    ((lookup scenAB 1).map Device.index = some 0 ∧
     (lookup scenAB 2).map Device.index = some 1 ∧
     (lookup scenFinal 3).map Device.index = some 0 ∧
     (lookup scenFinal 2).map Device.index = some 1) := by
  refine ⟨?_, ?_, ?_⟩
  · intro devices
    obtain ⟨f1, f2, -, f4⟩ := findFirstOpenIndex_spec devices
    exact ⟨f1, f2, f4⟩
  · intro r res h
    have hid : (deviceOfOpen res).instance_id = res.instance_id := rfl
    simp only [AddDevice, mapInsert, hid, h, Option.isSome_none, Bool.false_eq_true,
      if_false]
  · exact ⟨by decide, by decide, by decide, by decide⟩

/-- Witness for C3: attaching device A to the empty registry assigns it
slot `FindFirstOpenIndex` of the empty registry. -/
theorem slot_assignment_correct_witness :
    AddDevice [] (some scenA) =
      (scenA.instance_id,
        { deviceOfOpen scenA with
          index := findFirstOpenIndex (([] : Registry).map Prod.snd) }) :: [] :=
  slot_assignment_correct.2.1 [] scenA rfl

/-- A single attach/detach notification preserves distinctness of the slot
indices of open devices. -/
theorem pairwise_applyOp (r : Registry) (op : RegOp)
    (h : r.Pairwise (fun p q => p.2.index ≠ q.2.index)) :
    (applyOp r op).Pairwise (fun p q => p.2.index ≠ q.2.index) := by
  cases op with
  | add res =>
      cases res with
      | none => exact h
      | some res =>
          show (mapInsert r _ _).Pairwise _
          unfold mapInsert
          by_cases hk : (lookup r ({ deviceOfOpen res with
              index := findFirstOpenIndex (r.map Prod.snd) } : Device).instance_id).isSome
          · rw [if_pos hk]
            exact h
          · rw [if_neg hk]
            rw [List.pairwise_cons]
            refine ⟨?_, h⟩
            intro q hq
            obtain ⟨f1, -, -, -⟩ := findFirstOpenIndex_spec (r.map Prod.snd)
            have hmem : q.2 ∈ r.map Prod.snd := List.mem_map_of_mem Prod.snd hq
            have hne := f1 q.2 hmem
            exact fun he => hne (by simpa using he.symm)
  | remove id =>
      show ((RemoveDevice r id).1).Pairwise _
      cases hl : lookup r id with
      | none =>
          simp only [RemoveDevice, hl]
          exact h
      | some d =>
          simp only [RemoveDevice, hl]
          exact h.sublist (List.eraseP_sublist _)

/-- C4.  Starting from the empty registry, any sequence of AddDevice and
RemoveDevice operations leaves the slot indices of the currently-open
devices pairwise distinct. -/
theorem slot_uniqueness_invariant (ops : List RegOp) :
    (applyOps [] ops).Pairwise (fun p q => p.2.index ≠ q.2.index) := by
  suffices h : ∀ (ops : List RegOp) (r : Registry),
      r.Pairwise (fun p q => p.2.index ≠ q.2.index) →
      (applyOps r ops).Pairwise (fun p q => p.2.index ≠ q.2.index) from
    h ops [] List.Pairwise.nil
  intro ops
  induction ops with
  | nil =>
      intro r h
      exact h
  | cons op rest ih =>
      intro r h
      exact ih (applyOp r op) (pairwise_applyOp r op h)

/-- C6.  When the underlying open call fails, `AddDevice` returns with the
registry completely unchanged: no entry is inserted and the next free slot
index is unaffected. -/
theorem register_open_failure_no_insert (r : Registry) :
    AddDevice r none = r ∧
    findFirstOpenIndex ((AddDevice r none).map Prod.snd)
      = findFirstOpenIndex (r.map Prod.snd) :=
  ⟨rfl, rfl⟩

/-- Counterexample to C5 as stated: an operation referencing an absent
instance id is not always a benign no-op.  Hat discretization on an
unknown id surfaces a hard error (`devices.at` throws
`std::out_of_range`), and the button-event slot lookup (`devices[which]`)
modifies the registry by inserting a value-initialized entry. -/
theorem unknown_instance_not_benign :
    DiscretizeHatEventM [] 0 0 1 = Except.error MapError.outOfRange ∧
    (mapIndexDefault [] 7).2 ≠ [] :=
  ⟨rfl, by decide⟩

/-- C5 amended.  For an instance id absent from the registry:
`RemoveDevice` returns without error, issues no close call and leaves the
registry unchanged; but `DiscretizeHatEvent` and `DiscretizeJoyAxisEvent`
throw `std::out_of_range` through `devices.at`, and the button-event slot
lookup `devices[id]` inserts a value-initialized device entry (slot 0)
under that id, modifying the registry. -/
theorem unknown_instance_behavior (r : Registry) (id : Int) (hat : Nat)
    (hv : Nat) (axis : Nat) (av : Int) (h : lookup r id = none) :
    RemoveDevice r id = (r, []) ∧
    DiscretizeHatEventM r id hat hv = Except.error MapError.outOfRange ∧
    DiscretizeJoyAxisEventM r id axis av = Except.error MapError.outOfRange ∧
    mapIndexDefault r id = (defaultDevice, r ++ [(id, defaultDevice)]) := by
  refine ⟨?_, ?_, ?_, ?_⟩
  · simp only [RemoveDevice, h]
  · simp only [DiscretizeHatEventM, h]
  · simp only [DiscretizeJoyAxisEventM, h]
  · simp only [mapIndexDefault, h]

/-- Witness for the amended C5, on the empty registry with id 5. -/
theorem unknown_instance_behavior_witness :
    RemoveDevice [] 5 = ([], []) ∧
    DiscretizeHatEventM [] 5 0 0 = Except.error MapError.outOfRange ∧
    DiscretizeJoyAxisEventM [] 5 0 0 = Except.error MapError.outOfRange ∧
    mapIndexDefault [] 5 = (defaultDevice, [] ++ [(5, defaultDevice)]) :=
  unknown_instance_behavior [] 5 0 0 0 0 rfl

/-- C7 is violated by the code.  In the spec scenario — one open
controller, a rumble request, then no further events — the first timeout
clears the deadline and issues the stop call, but execution falls through
to `switch (e.type)` with the stale rumble event still in `e`
(`SDL_WaitEventTimeout` does not overwrite `e` on timeout), which restarts
the rumble and re-arms the deadline; the next timeout issues the stop call
again.  The trace shows the stop-actuation call issued twice with no
intervening event, and the deadline pending again afterwards, contradicting
"exactly once, after which the pending deadline is cleared". -/
theorem rumble_stop_reissued_on_stale_event :
    (runBody rumbleStart rumbleSchedule).trace =
      [Action.startRumble (some 7) 1 1 50, Action.stopRumble (some 7),
       Action.startRumble (some 7) 1 1 50, Action.stopRumble (some 7),
       Action.startRumble (some 7) 1 1 50] ∧
    (runBody rumbleStart rumbleSchedule).rumble_end = some 250 :=
  ⟨rfl, rfl⟩

/-- Counterexample to C8 as stated: the iteration that processes SDL_QUIT
only clears the run flag — the loop exits with the registry still
populated and no close or release call issued before the loop exit. -/
theorem shutdown_no_close_before_loop_exit :
    (runBody shutdownStart [⟨WaitOutcome.event SDLEventT.quit, 0, none⟩]).running = false ∧
    (runBody shutdownStart [⟨WaitOutcome.event SDLEventT.quit, 0, none⟩]).devices
      = [(7, ctrlDev)] ∧
    (runBody shutdownStart [⟨WaitOutcome.event SDLEventT.quit, 0, none⟩]).trace = [] :=
  ⟨rfl, rfl, rfl⟩

/-- Any state with the run flag cleared absorbs every further input: the
loop body never runs again. -/
theorem runBody_stopped (s : LoopState) (h : s.running = false) :
    ∀ l : List LoopInput, runBody s l = s := by
  intro l
  cases l with
  | nil => rfl
  | cons a l2 => simp [runBody, h]

/-- C8 amended.  On the shutdown signal the Worker clears the run flag and
exits its loop without closing the registry devices; the library-wide
`SDL_Quit()` then runs after the loop and before `run()` returns,
appearing at the end of the trace of every complete run (it shuts the
joystick and game-controller subsystems down, releasing the open
handles); and shutdown is idempotent — once the run flag is cleared every
further input, including repeated shutdown signals, has no effect. -/
theorem shutdown_behavior (s : LoopState) (t : Nat) (o : Option OpenOutcome)
    (inputs : List LoopInput) (hrun : s.running = true) :
    loopStep s ⟨WaitOutcome.event SDLEventT.quit, t, o⟩
      = { s with e := SDLEventT.quit, running := false } ∧
    (∀ l : List LoopInput, runBody { s with running := false } l
      = { s with running := false }) ∧
    runBody s (⟨WaitOutcome.event SDLEventT.quit, t, o⟩ :: inputs)
      = { s with e := SDLEventT.quit, running := false } ∧
    (runModel s inputs).trace = (runBody s inputs).trace ++ [Action.sdlQuit] := by
  have hstep : loopStep s ⟨WaitOutcome.event SDLEventT.quit, t, o⟩
      = { s with e := SDLEventT.quit, running := false } := by
    cases hre : s.rumble_end with
    | none => simp only [loopStep, hre, dispatchEvent]
    | some d => simp only [loopStep, hre, dispatchEvent]
  refine ⟨hstep, fun l => runBody_stopped _ rfl l, ?_, rfl⟩
  show (if s.running = true
      then runBody (loopStep s ⟨WaitOutcome.event SDLEventT.quit, t, o⟩) inputs
      else s) = _
  rw [if_pos hrun, hstep]
  exact runBody_stopped _ rfl inputs

/-- Witness for the amended C8: applied to the concrete shutdown scenario
state. -/
theorem shutdown_behavior_witness :
    loopStep shutdownStart ⟨WaitOutcome.event SDLEventT.quit, 0, none⟩
      = { shutdownStart with e := SDLEventT.quit, running := false } :=
  (shutdown_behavior shutdownStart 0 none [] rfl).1

end SDLIM
